import Mathlib

/-!
Shallow embedding of the portfolio web application in `src/api/index.py`:
the admin-gated upload pipeline (`admin`, lines 111-144), the delete
pipeline (`delete_project`, lines 147-154), the listing route (`home`,
lines 102-108) and the contact pipeline (`contact_me`, lines 157-186),
together with the `Project` record model (lines 94-99).

The relational store is modelled as a list of `Project` records inside
`AppState` (SQLAlchemy session `add`/`commit`/`delete` become list
operations; the autoincrement primary key becomes `nextId`).  The
Supabase blob store is modelled as a list of uploaded objects.  The
mailer is modelled as a function argument returning `Except`, so a
raised exception of `msg.send()` becomes an `Except.error` value that
the embedded handler catches, exactly as the `try/except` in the source
does.

Third-party validator semantics (wtforms `DataRequired`, flask_wtf
`FileRequired`/`FileAllowed`, werkzeug `secure_filename`) are not part
of this repository's sources; those few definitions are modelled from
the specification's words and are marked `Modelled from the spec:` in
their doc comments.
-/

namespace Portfolio

/-- A stored portfolio entry, from `class Project(db.Model)` (src/api/index.py
lines 94-99): integer primary key plus four string columns. -/
structure Project where
  id : Nat
  project_url : String
  title : String
  description : String
  image : String
deriving Repr, DecidableEq

/-- An uploaded file as the form sees it: original filename, raw bytes
(`f.read()`), and declared content type (`f.content_type`). -/
structure ImageFile where
  filename : String
  content : List Nat
  content_type : String
deriving Repr, DecidableEq

/-- The upload form `class UploadProject(FlaskForm)` (lines 22-30):
`project_url`, `title`, `description` and an optional uploaded `image`
(`none` models a request with no file part). -/
structure UploadProject where
  project_url : String
  title : String
  description : String
  image : Option ImageFile
deriving Repr, DecidableEq

/-- The contact form `class ContactMe(FlaskForm)` (lines 32-36). -/
structure ContactMe where
  name : String
  email : String
  message : String
deriving Repr, DecidableEq

/-- An object sitting in the Supabase blob store: bucket, storage key,
bytes and content type, as passed in `supabase.storage.from_(...).upload`
(lines 125-129). -/
structure BlobObject where
  bucket : String
  path : String
  content : List Nat
  contentType : String
deriving Repr, DecidableEq

/-- An outbound email, from the `EmailMessage(...)` construction
(lines 169-175). -/
structure Email where
  subject : String
  body : String
  from_email : String
  to_addr : List String
  reply_to : List String
deriving Repr, DecidableEq

/-- Mutable application state: the `Project` table (record store), the
autoincrement counter for the primary key, and the blob store contents. -/
structure AppState where
  store : List Project
  nextId : Nat
  blobs : List BlobObject
deriving Repr, DecidableEq

/-- Environment-derived configuration: the Supabase base URL
(`SUPABASE_URL`, line 18) and the authenticated mail account
(`MAIL_USERNAME`, line 66). -/
structure AppConfig where
  supabaseUrl : String
  mailUsername : String
deriving Repr, DecidableEq

/-- The responses the embedded handlers can produce: `"Unauthorized", 403`,
`abort(404)` raised by `get_or_404`, `redirect(url_for(...))`, and
`render_template(page)`. -/
inductive Response where
  | unauthorized
  | notFound
  | redirect (target : String)
  | html (page : String)
deriving Repr, DecidableEq

/-- The hardcoded shared admin secret compared against the `admin` query
parameter (lines 107, 114, 149). -/
def adminSecret : String := "1234"

/-- Modelled from the spec: the wtforms `DataRequired` validator is not part
of this repository; per the spec (section 4.2) a required text field must be
non-empty. -/
def dataRequired (s : String) : Bool := !s.data.isEmpty

/-- Allowed image extensions, from `FileAllowed(['jpg', 'png', 'jpeg'], ...)`
(line 28). -/
def allowedExtensions : List String := ["jpg", "png", "jpeg"]

/-- Modelled from the spec: the flask_wtf `FileAllowed` validator is not part
of this repository; per the spec (sections 4.2 and 9) the filename extension
must be one of `allowedExtensions`, compared case-sensitively. -/
def fileAllowed (filename : String) : Bool :=
  allowedExtensions.any (fun e => ('.' :: e.data).isSuffixOf filename.data)

/-- Modelled from the spec: the flask_wtf `FileRequired` validator is not
part of this repository; per the spec the image must be present, and then
`fileAllowed` applies to its filename. -/
def fileRequiredAndAllowed : Option ImageFile → Bool
  | none => false
  | some f => fileAllowed f.filename

/-- The `form.validate_on_submit()` check of the upload form (line 118):
all three text fields pass `DataRequired` and the image passes
`FileRequired` and `FileAllowed`. -/
def validate_on_submit (form : UploadProject) : Bool :=
  dataRequired form.project_url && dataRequired form.title &&
    dataRequired form.description && fileRequiredAndAllowed form.image

/-- The `form.validate_on_submit()` check of the contact form (line 161):
all three fields pass `DataRequired`. -/
def contact_validate (form : ContactMe) : Bool :=
  dataRequired form.name && dataRequired form.email && dataRequired form.message

/-- Characters kept by the filename sanitizer: ASCII alphanumerics, dot,
underscore and dash. -/
def isSafeFilenameChar (c : Char) : Bool :=
  c.isAlphanum || c = '_' || c = '.' || c = '-'

/-- Characters stripped from the ends of a sanitized filename. -/
def filenameStripChar (c : Char) : Bool := c = '.' || c = '_'

/-- Drops characters satisfying `p` from both ends of a list. -/
def stripEdges (p : Char → Bool) (l : List Char) : List Char :=
  ((l.dropWhile p).reverse.dropWhile p).reverse

/-- Modelled from the spec: werkzeug's `secure_filename` (imported at line 11,
used at line 123) is not part of this repository; per the spec (section 4.2)
it strips directory components and unsafe characters from the original
filename before it is used as a storage key.  Path separators become word
breaks, words are joined with underscores, every character outside
`isSafeFilenameChar` is dropped, and leading or trailing dots and
underscores are removed. -/
def secure_filename (filename : String) : String :=
  let words := ((filename.data.map fun c => if c = '/' then ' ' else c).splitOn ' ').filter
    (fun w => !w.isEmpty)
  let joined := List.intercalate ['_'] words
  String.mk (stripEdges filenameStripChar (joined.filter isSafeFilenameChar))

/-- Public URL resolution `get_public_url` (line 131): the Supabase public
object URL for a key in a bucket. -/
def get_public_url (cfg : AppConfig) (bucket path : String) : String :=
  cfg.supabaseUrl ++ "/storage/v1/object/public/" ++ bucket ++ "/" ++ path

/-- The `home` route (lines 102-108): renders the project list
(`Project.query.all()`) and the admin flag (`request.args.get('admin') == '1234'`). -/
structure HomePage where
  projects : List Project
  is_admin : Bool
deriving Repr, DecidableEq

/-- The `home` handler (lines 102-108).  It reads the store and mutates
nothing. -/
def home (adminKey : Option String) (st : AppState) : HomePage :=
  { projects := st.store, is_admin := adminKey = some adminSecret }

/-- The `admin` route (lines 111-144): admin gate, form validation, blob
upload of the sanitized filename, public-URL resolution, record insert,
redirect home.  An invalid form re-renders `admin.html` with no state
change. -/
def admin (cfg : AppConfig) (adminKey : Option String) (form : UploadProject)
    (st : AppState) : Response × AppState :=
  if adminKey ≠ some adminSecret then (Response.unauthorized, st)
  else if validate_on_submit form then
    match form.image with
    | some f =>
      let filename := secure_filename f.filename
      let afterUpload : AppState :=
        { st with blobs := st.blobs ++ [⟨"project-images", filename, f.content, f.content_type⟩] }
      let image_url := get_public_url cfg "my-portfolio-storage" filename
      let new_project : Project :=
        ⟨st.nextId, form.project_url, form.title, form.description, image_url⟩
      (Response.redirect "home",
        { afterUpload with store := afterUpload.store ++ [new_project], nextId := st.nextId + 1 })
    | none => (Response.html "admin.html", st)
  else (Response.html "admin.html", st)

/-- The `delete_project` route (lines 147-154): admin gate, then
`Project.query.get_or_404(project_id)` (404 when absent), then
`db.session.delete` of the found record. -/
def delete_project (adminKey : Option String) (projectId : Nat) (st : AppState) :
    Response × AppState :=
  if adminKey ≠ some adminSecret then (Response.unauthorized, st)
  else
    match st.store.find? (fun p => p.id == projectId) with
    | none => (Response.notFound, st)
    | some _ =>
      (Response.redirect "home",
        { st with store := st.store.eraseP (fun p => p.id == projectId) })

/-- The formatted message body (lines 163-167). -/
def full_message_body (form : ContactMe) : String :=
  "Name: " ++ form.name ++ "\n" ++ "Email: " ++ form.email ++ "\n\n" ++
    "Message:\n" ++ form.message

/-- The `EmailMessage` built at lines 169-175. -/
def contactEmail (cfg : AppConfig) (form : ContactMe) : Email :=
  { subject := "New Portfolio Message from " ++ form.name
    body := full_message_body form
    from_email := cfg.mailUsername
    to_addr := ["kenengbusiness@gmail.com"]
    reply_to := [form.email] }

/-- Observable outcome of one run of the contact handler: the response, the
flashed messages, every dispatch attempted on the mailer, and the emails
actually delivered. -/
structure ContactOutcome where
  response : Response
  flashes : List (String × String)
  mailAttempts : List Email
  delivered : List Email
deriving Repr, DecidableEq

/-- The `contact_me` handler (lines 157-186).  The mailer is the `dispatch`
argument; `Except.error` models `msg.send()` raising, which the handler's
`try/except` catches, flashing a fixed generic failure message and falling
through to re-render `contact.html`.  A form that fails validation renders
`contact.html` without ever touching the mailer.  The record store is never
read or written. -/
def contact_me (cfg : AppConfig) (form : ContactMe)
    (dispatch : Email → Except String Unit) (st : AppState) :
    ContactOutcome × AppState :=
  if contact_validate form then
    let msg := contactEmail cfg form
    match dispatch msg with
    | Except.ok _ =>
      ({ response := Response.redirect "home"
         flashes := [("Email sent successfully!", "success")]
         mailAttempts := [msg]
         delivered := [msg] }, st)
    | Except.error _ =>
      ({ response := Response.html "contact.html"
         flashes := [("Failed to send email. Please try again later.", "danger")]
         mailAttempts := [msg]
         delivered := [] }, st)
  else
    ({ response := Response.html "contact.html"
       flashes := []
       mailAttempts := []
       delivered := [] }, st)

/-- Column bounds declared by the `Project` schema (lines 94-99):
`project_url`, `title` and `image` are `db.String(200)`; `description` is
unbounded `db.Text`. -/
def projectFitsSchema (p : Project) : Bool :=
  decide (p.project_url.length ≤ 200) && decide (p.title.length ≤ 200) &&
    decide (p.image.length ≤ 200)

/-- Sample configuration used to exercise the handlers on concrete inputs. -/
def demoConfig : AppConfig := ⟨"https://sb.example.com", "me@gmail.com"⟩

/-- Sample uploaded image. -/
def demoImage : ImageFile := ⟨"photo.png", [1, 2, 3], "image/png"⟩

/-- Sample valid upload form. -/
def demoForm : UploadProject := ⟨"https://example.com", "My App", "A demo", some demoImage⟩

/-- Sample upload form whose title is empty, so validation fails. -/
def demoBadForm : UploadProject := ⟨"https://example.com", "", "A demo", some demoImage⟩

/-- Sample upload form whose image filename attempts path traversal. -/
def demoTraversalForm : UploadProject :=
  ⟨"https://example.com", "My App", "A demo", some ⟨"../evil.png", [7, 7], "image/png"⟩⟩

/-- Two sample stored projects. -/
def demoP1 : Project := ⟨1, "u1", "t1", "d1", "i1"⟩

/-- Second sample stored project. -/
def demoP2 : Project := ⟨2, "u2", "t2", "d2", "i2"⟩

/-- Sample populated application state. -/
def demoState : AppState := ⟨[demoP1, demoP2], 3, []⟩

/-- Initial empty application state. -/
def emptyState : AppState := ⟨[], 1, []⟩

/-- A 201-character title, exceeding the declared 200-character column bound. -/
def longTitle : String := String.mk (List.replicate 201 'a')

/-- Sample contact form with all fields present. -/
def demoContact : ContactMe := ⟨"Ada", "ada@example.com", "Hi"⟩

/-- Sample contact form with an empty name, so validation fails. -/
def demoBadContact : ContactMe := ⟨"", "ada@example.com", "Hi"⟩

/-- Characters surviving `stripEdges` come from the original list. -/
theorem mem_of_mem_stripEdges {p : Char → Bool} {l : List Char} {c : Char}
    (h : c ∈ stripEdges p l) : c ∈ l := by
  unfold stripEdges at h
  rw [List.mem_reverse] at h
  have h1 := List.Sublist.subset (List.dropWhile_sublist p) h
  rw [List.mem_reverse] at h1
  exact List.Sublist.subset (List.dropWhile_sublist p) h1

/-- Every character of a sanitized filename is a safe filename character. -/
theorem secure_filename_safe (fn : String) :
    ∀ c ∈ (secure_filename fn).data, isSafeFilenameChar c = true := by
  intro c hc
  have hc2 : c ∈ stripEdges filenameStripChar
      ((List.intercalate ['_']
        (((fn.data.map fun ch => if ch = '/' then ' ' else ch).splitOn ' ').filter
          (fun w => !w.isEmpty))).filter isSafeFilenameChar) := hc
  exact (List.mem_filter.mp (mem_of_mem_stripEdges hc2)).2

/-- A sanitized filename never contains a path separator. -/
theorem secure_filename_no_slash (fn : String) :
    ((secure_filename fn).data.contains '/') = false := by
  have h : '/' ∉ (secure_filename fn).data := fun hmem =>
    absurd (secure_filename_safe fn '/' hmem) (by decide)
  simpa [List.contains] using h

/-- Searching a list whose prefix all fails the predicate finds the first hit. -/
theorem find?_append_cons {α : Type} (p : α → Bool) (l₁ l₂ : List α) (a : α)
    (h₁ : ∀ x ∈ l₁, p x = false) (ha : p a = true) :
    (l₁ ++ a :: l₂).find? p = some a := by
  induction l₁ with
  | nil => simpa using List.find?_cons_of_pos l₂ ha
  | cons x xs ih =>
    have hx : p x = false := h₁ x (by simp)
    rw [List.cons_append, List.find?_cons_of_neg _ (by simp [hx])]
    exact ih (fun y hy => h₁ y (by simp [hy]))

/-- Erasing the first hit of the predicate removes exactly that element. -/
theorem eraseP_append_cons {α : Type} (p : α → Bool) (l₁ l₂ : List α) (a : α)
    (h₁ : ∀ x ∈ l₁, p x = false) (ha : p a = true) :
    (l₁ ++ a :: l₂).eraseP p = l₁ ++ l₂ := by
  induction l₁ with
  | nil => simp [List.eraseP_cons, ha]
  | cons x xs ih =>
    have hx : p x = false := h₁ x (by simp)
    have ih2 := ih (fun y hy => h₁ y (by simp [hy]))
    simp [List.eraseP_cons, hx, ih2]

/-- Claim C1: an upload (create) or delete request whose supplied admin
parameter differs from the configured secret returns Unauthorized and leaves
the application state (record store and blob store) completely unmutated. -/
theorem C1_unauthorized_no_mutation (cfg : AppConfig) (adminKey : Option String)
    (form : UploadProject) (projectId : Nat) (st : AppState)
    (h : adminKey ≠ some adminSecret) :
    admin cfg adminKey form st = (Response.unauthorized, st) ∧
    delete_project adminKey projectId st = (Response.unauthorized, st) := by
  constructor <;> simp [admin, delete_project, h]

/-- Witness for C1 at a concrete wrong admin key. -/
theorem C1_unauthorized_no_mutation_witness :
    admin demoConfig (some "wrong") demoForm demoState =
      (Response.unauthorized, demoState) ∧
    delete_project (some "wrong") 1 demoState = (Response.unauthorized, demoState) :=
  C1_unauthorized_no_mutation demoConfig (some "wrong") demoForm 1 demoState (by decide)

/-- Claim C3: an upload whose form fails validation (some text field empty,
image missing, or image extension not allowed) re-renders the form and
performs no side effects: the state, hence both the record store and the
blob store, is unchanged. -/
theorem C3_invalid_upload_no_side_effects (cfg : AppConfig) (form : UploadProject)
    (st : AppState)
    (h : form.project_url = "" ∨ form.title = "" ∨ form.description = "" ∨
      form.image = none ∨ ∃ f, form.image = some f ∧ fileAllowed f.filename = false) :
    admin cfg (some adminSecret) form st = (Response.html "admin.html", st) := by
  have hd : dataRequired "" = false := by decide
  have hv : validate_on_submit form = false := by
    rcases h with h | h | h | h | ⟨f, hf, hext⟩
    · simp [validate_on_submit, h, hd]
    · simp [validate_on_submit, h, hd]
    · simp [validate_on_submit, h, hd]
    · simp [validate_on_submit, fileRequiredAndAllowed, h]
    · simp [validate_on_submit, fileRequiredAndAllowed, hf, hext]
  simp [admin, hv]

/-- Witness for C3: an upload with an empty title changes nothing. -/
theorem C3_invalid_upload_no_side_effects_witness :
    admin demoConfig (some adminSecret) demoBadForm demoState =
      (Response.html "admin.html", demoState) :=
  C3_invalid_upload_no_side_effects demoConfig demoBadForm demoState
    (Or.inr (Or.inl rfl))

/-- Claim C6: deleting an id absent from the store, with a correct admin
secret, yields NotFound and leaves the store unchanged, so in particular its
cardinality is preserved. -/
theorem C6_delete_missing_notfound (st : AppState) (projectId : Nat)
    (h : ∀ p ∈ st.store, p.id ≠ projectId) :
    delete_project (some adminSecret) projectId st = (Response.notFound, st) ∧
    (delete_project (some adminSecret) projectId st).2.store.length =
      st.store.length := by
  have hfind : st.store.find? (fun p => p.id == projectId) = none :=
    List.find?_eq_none.mpr (fun p hp => by simpa using h p hp)
  constructor <;> simp [delete_project, hfind]

/-- Witness for C6: deleting id 5 from a store holding ids 1 and 2. -/
theorem C6_delete_missing_notfound_witness :
    delete_project (some adminSecret) 5 demoState = (Response.notFound, demoState) ∧
    (delete_project (some adminSecret) 5 demoState).2.store.length =
      demoState.store.length :=
  C6_delete_missing_notfound demoState 5 (by decide)

/-- Claim C2: a validated upload creates exactly one new Project record whose
project_url, title and description equal the submitted inputs and whose image
is the public URL resolved for the storage key under which the image bytes
were uploaded; a subsequent list-all (the home route) returns that record
with identical field values. -/
theorem C2_valid_upload_roundtrip (cfg : AppConfig) (form : UploadProject)
    (st : AppState) (hv : validate_on_submit form = true) :
    ∃ f p, form.image = some f ∧
      admin cfg (some adminSecret) form st =
        (Response.redirect "home",
          { store := st.store ++ [p], nextId := st.nextId + 1,
            blobs := st.blobs ++
              [⟨"project-images", secure_filename f.filename, f.content,
                f.content_type⟩] }) ∧
      p.project_url = form.project_url ∧ p.title = form.title ∧
      p.description = form.description ∧
      p.image = get_public_url cfg "my-portfolio-storage" (secure_filename f.filename) ∧
      p ∈ (home none (admin cfg (some adminSecret) form st).2).projects := by
  obtain ⟨f, hf⟩ : ∃ f, form.image = some f := by
    cases himg : form.image with
    | none => simp [validate_on_submit, fileRequiredAndAllowed, himg] at hv
    | some f => exact ⟨f, rfl⟩
  refine ⟨f, ⟨st.nextId, form.project_url, form.title, form.description,
      get_public_url cfg "my-portfolio-storage" (secure_filename f.filename)⟩,
    hf, ?_, rfl, rfl, rfl, rfl, ?_⟩
  · simp [admin, hv, hf]
  · simp [admin, home, hv, hf]

/-- Witness for C2 at a concrete valid upload into a populated store. -/
theorem C2_valid_upload_roundtrip_witness :
    ∃ f p, demoForm.image = some f ∧
      admin demoConfig (some adminSecret) demoForm demoState =
        (Response.redirect "home",
          { store := demoState.store ++ [p], nextId := demoState.nextId + 1,
            blobs := demoState.blobs ++
              [⟨"project-images", secure_filename f.filename, f.content,
                f.content_type⟩] }) ∧
      p.project_url = demoForm.project_url ∧ p.title = demoForm.title ∧
      p.description = demoForm.description ∧
      p.image = get_public_url demoConfig "my-portfolio-storage"
        (secure_filename f.filename) ∧
      p ∈ (home none (admin demoConfig (some adminSecret) demoForm demoState).2).projects :=
  C2_valid_upload_roundtrip demoConfig demoForm demoState (by decide)

/-- Claim C5: a validated upload stores the image bytes under the sanitized
original filename, and that storage key contains no path separator, so no
directory components survive sanitization. -/
theorem C5_sanitized_storage_key (cfg : AppConfig) (form : UploadProject)
    (st : AppState) (f : ImageFile) (hf : form.image = some f)
    (hv : validate_on_submit form = true) :
    (admin cfg (some adminSecret) form st).2.blobs =
      st.blobs ++
        [⟨"project-images", secure_filename f.filename, f.content, f.content_type⟩] ∧
    ((secure_filename f.filename).data.contains '/') = false :=
  ⟨by simp [admin, hv, hf], secure_filename_no_slash f.filename⟩

/-- Witness for C5 on a filename containing `../` path traversal. -/
theorem C5_sanitized_storage_key_witness :
    (admin demoConfig (some adminSecret) demoTraversalForm emptyState).2.blobs =
      emptyState.blobs ++
        [⟨"project-images", secure_filename "../evil.png", [7, 7], "image/png"⟩] ∧
    ((secure_filename "../evil.png").data.contains '/') = false :=
  C5_sanitized_storage_key demoConfig demoTraversalForm emptyState
    ⟨"../evil.png", [7, 7], "image/png"⟩ rfl (by decide)

/-- Claim C7: deleting an existing id with the correct admin secret removes
exactly that record; every record before and after it in the store stays in
place with identical id and field values. -/
theorem C7_delete_existing_exact (st : AppState) (projectId : Nat) (q : Project)
    (l₁ l₂ : List Project) (hsplit : st.store = l₁ ++ q :: l₂)
    (hq : q.id = projectId) (hl₁ : ∀ r ∈ l₁, r.id ≠ projectId) :
    delete_project (some adminSecret) projectId st =
      (Response.redirect "home", { st with store := l₁ ++ l₂ }) := by
  have hq2 : (q.id == projectId) = true := by simp [hq]
  have hl₁2 : ∀ r ∈ l₁, (r.id == projectId) = false := fun r hr => by
    simpa using hl₁ r hr
  have hfind : st.store.find? (fun p => p.id == projectId) = some q := by
    rw [hsplit]; exact find?_append_cons _ l₁ l₂ q hl₁2 hq2
  have herase : st.store.eraseP (fun p => p.id == projectId) = l₁ ++ l₂ := by
    rw [hsplit]; exact eraseP_append_cons _ l₁ l₂ q hl₁2 hq2
  simp [delete_project, hfind, herase]

/-- Witness for C7: deleting id 2 from a store holding ids 1 and 2 leaves
exactly the record with id 1. -/
theorem C7_delete_existing_exact_witness :
    delete_project (some adminSecret) 2 demoState =
      (Response.redirect "home", { demoState with store := [demoP1] ++ [] }) :=
  C7_delete_existing_exact demoState 2 demoP2 [demoP1] [] (by decide) (by decide)
    (by decide)

/-- Claim C4: the image validation accepts a file iff its filename ends with
a dot followed by one of the allowed extensions, compared case-sensitively,
so an uppercase variant such as `.JPG` is rejected while `.jpg` is
accepted. -/
theorem C4_extension_check_case_sensitive :
    (∀ f : ImageFile, fileRequiredAndAllowed (some f) = true ↔
      ∃ e ∈ allowedExtensions, List.IsSuffix ('.' :: e.data) f.filename.data) ∧
    fileRequiredAndAllowed (some ⟨"photo.JPG", [], "image/jpeg"⟩) = false ∧
    fileRequiredAndAllowed (some ⟨"photo.jpg", [], "image/jpeg"⟩) = true := by
  refine ⟨fun f => ?_, by decide, by decide⟩
  simp [fileRequiredAndAllowed, fileAllowed, List.any_eq_true,
    List.isSuffixOf_iff_suffix]

/-- Claim C8: a contact request with any of name, email or message empty
attempts no mail dispatch: the mailer is never invoked and nothing is
delivered. -/
theorem C8_contact_invalid_no_dispatch (cfg : AppConfig) (form : ContactMe)
    (dispatch : Email → Except String Unit) (st : AppState)
    (h : form.name = "" ∨ form.email = "" ∨ form.message = "") :
    (contact_me cfg form dispatch st).1.mailAttempts = [] ∧
    (contact_me cfg form dispatch st).1.delivered = [] := by
  have hd : dataRequired "" = false := by decide
  have hv : contact_validate form = false := by
    rcases h with h | h | h <;> simp [contact_validate, h, hd]
  constructor <;> simp [contact_me, hv]

/-- Witness for C8: an empty name reaches the mailer zero times. -/
theorem C8_contact_invalid_no_dispatch_witness :
    (contact_me demoConfig demoBadContact (fun _ => Except.ok ()) emptyState).1.mailAttempts = [] ∧
    (contact_me demoConfig demoBadContact (fun _ => Except.ok ()) emptyState).1.delivered = [] :=
  C8_contact_invalid_no_dispatch demoConfig demoBadContact (fun _ => Except.ok ())
    emptyState (Or.inl rfl)

/-- Claim C9: when a valid contact form's dispatch fails, the handler catches
the failure and reports a fixed generic failure flag whose content is
independent of the exception detail, delivering nothing and propagating no
exception; and the contact handler never mutates the application state in
any run. -/
theorem C9_contact_failure_caught (cfg : AppConfig) (form : ContactMe) (e : String)
    (dispatch : Email → Except String Unit) (st : AppState)
    (hv : contact_validate form = true)
    (hfail : dispatch (contactEmail cfg form) = Except.error e) :
    contact_me cfg form dispatch st =
      ({ response := Response.html "contact.html"
         flashes := [("Failed to send email. Please try again later.", "danger")]
         mailAttempts := [contactEmail cfg form]
         delivered := [] }, st) ∧
    ∀ (cfg2 : AppConfig) (form2 : ContactMe)
      (dispatch2 : Email → Except String Unit) (st2 : AppState),
      (contact_me cfg2 form2 dispatch2 st2).2 = st2 := by
  constructor
  · simp [contact_me, hv, hfail]
  · intro cfg2 form2 dispatch2 st2
    by_cases h : contact_validate form2 = true
    · simp only [contact_me, h, if_true]
      cases dispatch2 (contactEmail cfg2 form2) <;> rfl
    · simp [contact_me, h]

/-- Witness for C9: a concrete failing dispatch is caught with the generic
failure flash and no state change. -/
theorem C9_contact_failure_caught_witness :
    contact_me demoConfig demoContact (fun _ => Except.error "boom") emptyState =
      ({ response := Response.html "contact.html"
         flashes := [("Failed to send email. Please try again later.", "danger")]
         mailAttempts := [contactEmail demoConfig demoContact]
         delivered := [] }, emptyState) :=
  (C9_contact_failure_caught demoConfig demoContact "boom"
    (fun _ => Except.error "boom") emptyState (by decide) rfl).1

set_option maxRecDepth 8000 in
/-- Counterexample to claim C10: a validated upload with a 201-character
title persists a record whose title exceeds the declared 200-character
column bound, so the bound does not hold of every persisted record. -/
theorem C10_counterexample :
    ∃ p ∈ (admin demoConfig (some adminSecret)
        ⟨"https://example.com", longTitle, "A demo", some demoImage⟩
        emptyState).2.store,
      200 < p.title.length := by
  refine ⟨⟨1, "https://example.com", longTitle, "A demo",
    get_public_url demoConfig "my-portfolio-storage" (secure_filename "photo.png")⟩,
    ?_, ?_⟩
  · decide
  · decide

/-- Amended C10: the `Project` schema declares 200-character bounds on
project_url, title and image while description is unbounded, but the pipeline
enforces no length bound; the bounds are a store invariant only under the
added assumptions that every pre-existing record satisfies them and that the
submitted project_url, submitted title, and resolved public image URL are
each at most 200 characters. -/
theorem C10_amended_schema_bounds (cfg : AppConfig) (form : UploadProject)
    (st : AppState) (f : ImageFile) (hf : form.image = some f)
    (hv : validate_on_submit form = true)
    (hst : ∀ p ∈ st.store, projectFitsSchema p = true)
    (hurl : form.project_url.length ≤ 200) (htitle : form.title.length ≤ 200)
    (himg : (get_public_url cfg "my-portfolio-storage"
      (secure_filename f.filename)).length ≤ 200) :
    ∀ p ∈ (admin cfg (some adminSecret) form st).2.store,
      projectFitsSchema p = true := by
  intro p hp
  simp [admin, hv, hf] at hp
  rcases hp with hp | hp
  · exact hst p hp
  · subst hp
    simp [projectFitsSchema, hurl, htitle, himg]

/-- Witness for the amended C10 on a concrete short-field upload. -/
theorem C10_amended_schema_bounds_witness :
    ((admin demoConfig (some adminSecret) demoForm emptyState).2.store.all
      projectFitsSchema) = true := by
  have h := C10_amended_schema_bounds demoConfig demoForm emptyState demoImage rfl
    (by decide) (by decide) (by decide) (by decide) (by decide)
  exact List.all_eq_true.mpr (fun p hp => h p hp)

end Portfolio
